import Mathlib

/-
  Shallow embedding of pocketci's proxy (src/proxy/main.go).

  The program is a webhook relay with two modes:
  - static reverse-proxy mode ("-hooks" flag set): one long-lived dagger
    service + tunnel shared by all requests (reverseProxy, main.go:92-124);
  - clone-and-proxy mode: per-request parse of a GitHub push webhook,
    per-request dagger client, git clone, service + tunnel, relay, teardown
    (gitCloneProxy, main.go:135-202).

  Effectful external calls (dagger.Connect, Tunnel.Start, Tunnel.Endpoint,
  url.Parse, io.ReadAll, the JSON lexer) are oracled: each run supplies
  their outcomes in a world record, and the handler is a pure function from
  the world to the ordered trace of observable events it performs.
-/

namespace Pocketci

/-- JSON values, the inputs of encoding/json's Unmarshal once the lexer has
accepted the body. A body that the lexer rejects is represented as no value
at all (see HandlerWorld.bodyJson). -/
inductive Json where
  | null
  | bool (b : Bool)
  | num (n : Int)
  | str (s : String)
  | arr (elems : List Json)
  | obj (fields : List (String × Json))

/-- The two fields gitCloneProxy extracts (main.go:126-131): GithubWebhook
with Repository.FullName (json tag "full_name") and After (tag "after"). -/
structure GithubWebhook where
  fullName : String
  after : String
  deriving DecidableEq

/-- Go encoding/json semantics for one field of the inner "repository"
object: "full_name" must be a string (null leaves the zero value), any
other field is ignored. -/
def applyRepoField (gh : GithubWebhook) : String × Json → Except String GithubWebhook
  | ("full_name", .str s) => .ok { gh with fullName := s }
  | ("full_name", .null) => .ok gh
  | ("full_name", _) => .error "json: cannot unmarshal value into Go struct field .repository.full_name of type string"
  | (_, _) => .ok gh

/-- Fold applyRepoField over the fields of the "repository" object, in
order, stopping at the first type error (later duplicates overwrite). -/
def applyRepoFields (gh : GithubWebhook) : List (String × Json) → Except String GithubWebhook
  | [] => .ok gh
  | f :: fs =>
    match applyRepoField gh f with
    | .error e => .error e
    | .ok gh2 => applyRepoFields gh2 fs

/-- Go encoding/json semantics for one top-level field of GithubWebhook:
"repository" must be an object (null is a no-op), "after" must be a string
(null is a no-op), unknown fields are ignored. -/
def applyTopField (gh : GithubWebhook) : String × Json → Except String GithubWebhook
  | ("repository", .obj rf) => applyRepoFields gh rf
  | ("repository", .null) => .ok gh
  | ("repository", _) => .error "json: cannot unmarshal value into Go struct field GithubWebhook.repository"
  | ("after", .str s) => .ok { gh with after := s }
  | ("after", .null) => .ok gh
  | ("after", _) => .error "json: cannot unmarshal value into Go struct field GithubWebhook.after of type string"
  | (_, _) => .ok gh

/-- Fold applyTopField over the top-level fields, in order. -/
def applyTopFields (gh : GithubWebhook) : List (String × Json) → Except String GithubWebhook
  | [] => .ok gh
  | f :: fs =>
    match applyTopField gh f with
    | .error e => .error e
    | .ok gh2 => applyTopFields gh2 fs

/-- json.Unmarshal(b, &GithubWebhook{}) (main.go:146): the top-level value
must be an object (JSON null leaves the zero value); absent fields keep
their zero values (empty strings); wrong-typed fields are errors. -/
def unmarshalGithubWebhook : Json → Except String GithubWebhook
  | .obj fields => applyTopFields ⟨"", ""⟩ fields
  | .null => .ok ⟨"", ""⟩
  | _ => .error "json: cannot unmarshal value into Go value of type main.GithubWebhook"

/-- Go strings.Split(s, sep) restricted to the one-character separator the
code uses (main.go:162): splits around each occurrence; the empty string
yields one empty field; a trailing separator yields a trailing empty field. -/
def splitOnSlash : List Char → List (List Char)
  | [] => [[]]
  | c :: cs =>
    let rest := splitOnSlash cs
    if c = '/' then [] :: rest
    else
      match rest with
      | [] => [[c]]
      | p :: ps => (c :: p) :: ps

/-- repoName := fullRepo[len(fullRepo)-1] (main.go:162-163): the last
"/"-separated segment of full_name. The Go slice index is modelled by
List.get? at length-1; the default for the none case is never used
(splitOnSlash is never empty), mirroring that the Go index cannot panic. -/
def repoNameOf (s : String) : String :=
  let parts := splitOnSlash s.data
  String.mk ((parts.get? (parts.length - 1)).getD [])

/-- Observable events a run of the program performs, in order. -/
inductive Event where
  | respond (status : Nat) (body : String)
  | clientConnect
  | clientClose
  | gitResolve (cloneURL : String) (commitRef : String)
  | withDirectory (path : String)
  | withWorkdir (path : String)
  | tunnelStart
  | svcStop
  | tunnelStop
  | relayTo (endpoint : String) (method : String) (body : String)
  | templateBuild
  | listen
  | stopInvoke
  | cancelCtx
  deriving DecidableEq

/-- Per-request oracle for gitCloneProxy: the request (method and transport)
and the outcomes of every external call the handler makes. readBody is
io.ReadAll(r.Body) (the original bytes on success); bodyJson is the JSON
lexer's view of those bytes (none = syntax error, with jsonErr the
Unmarshal error message); the rest are the dagger / net calls in program
order. -/
structure HandlerWorld where
  method : String
  readBody : Except String String
  bodyJson : Option Json
  jsonErr : String
  connect : Except String Unit
  tunnelStart : Except String Unit
  endpoint : Except String String
  urlParse : String → Except String Unit

/-- json.Unmarshal(b, gh) as the handler sees it: a lexer rejection is an
error with the lexer's message, otherwise the struct decoding above. -/
def parseBody (w : HandlerWorld) : Except String GithubWebhook :=
  match w.bodyJson with
  | none => .error w.jsonErr
  | some j => unmarshalGithubWebhook j

/-- The clone-and-proxy handler (main.go:135-202) as a trace function.
Control flow mirrors the source exactly: read body (500 on failure),
restore body, unmarshal (500 on failure), dagger.Connect (500 on failure;
defer client.Close() is registered only after success), build the git
resolution + container + service, Tunnel.Start (500 on failure; the
svc.Stop/tunnel.Stop defer is registered only after success), Endpoint
(500 on failure), url.Parse (500 on failure), relay. Deferred calls run at
every return in LIFO order: svcStop, tunnelStop, then clientClose. -/
def gitCloneProxy (w : HandlerWorld) : List Event :=
  match w.readBody with
  | .error e => [.respond 500 e]
  | .ok b =>
    match parseBody w with
    | .error e => [.respond 500 e]
    | .ok gh =>
      match w.connect with
      | .error e => [.clientConnect, .respond 500 e]
      | .ok _ =>
        let cloneURL := "https://github.com/" ++ gh.fullName
        let mount := "/" ++ repoNameOf gh.fullName
        let pre : List Event :=
          [.clientConnect, .gitResolve cloneURL gh.after,
           .withDirectory mount, .withWorkdir mount, .tunnelStart]
        match w.tunnelStart with
        | .error e => pre ++ [.respond 500 e, .clientClose]
        | .ok _ =>
          match w.endpoint with
          | .error e => pre ++ [.respond 500 e, .svcStop, .tunnelStop, .clientClose]
          | .ok ep =>
            match w.urlParse ep with
            | .error e => pre ++ [.respond 500 e, .svcStop, .tunnelStop, .clientClose]
            | .ok _ => pre ++ [.relayTo ep w.method b, .svcStop, .tunnelStop, .clientClose]

/-- Number of events in a trace satisfying a predicate. -/
def countEvents (p : Event → Bool) (t : List Event) : Nat :=
  (t.filter p).length

/-- Predicate for svc.Stop calls. -/
def isSvcStop : Event → Bool
  | .svcStop => true
  | _ => false

/-- Predicate for tunnel.Stop calls. -/
def isTunnelStop : Event → Bool
  | .tunnelStop => true
  | _ => false

/-- Predicate for Tunnel(svc).Start calls. -/
def isTunnelStart : Event → Bool
  | .tunnelStart => true
  | _ => false

/-- Predicate for dagger.Connect calls inside the handler. -/
def isClientConnect : Event → Bool
  | .clientConnect => true
  | _ => false

/-- Predicate for client.Close calls inside the handler. -/
def isClientClose : Event → Bool
  | .clientClose => true
  | _ => false

/-- Predicate for environment-provisioning work: resolving the git tree,
mounting it, setting the workdir, or starting the service tunnel. -/
def isProvision : Event → Bool
  | .gitResolve _ _ => true
  | .withDirectory _ => true
  | .withWorkdir _ => true
  | .tunnelStart => true
  | _ => false

/-- Predicate for git-tree resolution calls. -/
def isResolve : Event → Bool
  | .gitResolve _ _ => true
  | _ => false

/-- Predicate for HTTP error/normal responses written by the handler. -/
def isRespond : Event → Bool
  | .respond _ _ => true
  | _ => false

/-- Predicate for the stop-closure invocation in the signal goroutine. -/
def isStopInvoke : Event → Bool
  | .stopInvoke => true
  | _ => false

/-- An inbound HTTP request as the static-mode handler sees it. -/
structure Request where
  method : String
  body : String
  deriving DecidableEq

/-- Oracle for the static-mode setup (reverseProxy, main.go:92-124): the
outcomes of Tunnel.Start, Tunnel.Endpoint and url.Parse. The service
construction itself (WithFile/WithWorkdir/WithExposedPort/WithExec/
AsService) is lazy and cannot fail before Start. -/
structure StaticWorld where
  tunnelStart : Except String Unit
  endpoint : Except String String
  urlParse : String → Except String Unit

/-- reverseProxy (main.go:92-124): starts the tunnel over the hooks
service, resolves its endpoint and parses it; each failure is log.Fatalf
(modelled as returning no endpoint, which makes main fatal). On success
the endpoint string is fixed for the life of the process. -/
def reverseProxy (w : StaticWorld) : List Event × Option String :=
  match w.tunnelStart with
  | .error _ => ([.tunnelStart], none)
  | .ok _ =>
    match w.endpoint with
    | .error _ => ([.tunnelStart], none)
    | .ok ep =>
      match w.urlParse ep with
      | .error _ => ([.tunnelStart], none)
      | .ok _ => ([.tunnelStart], some ep)

/-- The static-mode request handler (main.go:120-123): every request is
relayed to the one endpoint captured at setup. -/
def staticHandler (ep : String) (r : Request) : List Event :=
  [.relayTo ep r.method r.body]

/-- The signal goroutine (main.go:76-82): it performs exactly one receive
from the capacity-1 signal channel and then exits, so however many
SIGINT/SIGTERM deliveries occur, at most the first is acted on: stop() is
invoked synchronously, then the cancel function of the context created at
main.go:73. With no delivered signal the goroutine blocks forever and
performs nothing. -/
def signalRoutine (signals : List Nat) (stopEvents : List Event) : List Event :=
  match signals with
  | [] => []
  | _ :: _ => .stopInvoke :: (stopEvents ++ [.cancelCtx])

/-- Process-level oracle for main (main.go:24-88): outcomes of
dagger.Connect and the template warm-up Sync, the -hooks flag, the hooks
file read, the static-mode oracles, the requests served in each mode, and
the numbers of the POSIX signals delivered to the process. -/
structure MainWorld where
  connect : Except String Unit
  templateSync : Except String Unit
  hooksPath : String
  hooksContents : Except String String
  static : StaticWorld
  staticRequests : List Request
  cloneRequests : List HandlerWorld
  signals : List Nat

/-- Observable outcome of a run of main. fatal is log.Fatalf (the process
exits with status 1 before the listener opens); setupTrace is everything
before ListenAndServe; serveTrace is the concatenation of the per-request
handler traces; signalTrace is what the signal goroutine performs;
shutdownRequested records whether anything asks the HTTP server to shut
down. -/
structure MainRun where
  fatal : Bool
  setupTrace : List Event
  listening : Bool
  serveTrace : List Event
  signalTrace : List Event
  shutdownRequested : Bool

/-- main (main.go:24-88) as a run function. dagger.Connect failure and
webhookContainer(client).Sync failure are fatal before anything else; the
Sync call (the template build) is the templateBuild event and always
precedes the listen event. With -hooks set, the hooks file must read
non-empty and reverseProxy must succeed, else log.Fatalf; its stop
closure is svc.Stop;tunnel.Stop. Without -hooks the stop closure is the
no-op func(){}. shutdownRequested is false on every path: main.go:73
discards the context from WithCancel into the blank identifier, the
server is built from Addr and Handler only, and srv.Shutdown is never
called, so cancelling the context is not observed by the server. -/
def runMain (w : MainWorld) : MainRun :=
  match w.connect with
  | .error _ => ⟨true, [], false, [], [], false⟩
  | .ok _ =>
    match w.templateSync with
    | .error _ => ⟨true, [.templateBuild], false, [], [], false⟩
    | .ok _ =>
      if w.hooksPath = "" then
        ⟨false, [.templateBuild, .listen], true,
          (w.cloneRequests.map gitCloneProxy).flatten,
          signalRoutine w.signals [], false⟩
      else
        match w.hooksContents with
        | .error _ => ⟨true, [.templateBuild], false, [], [], false⟩
        | .ok hooks =>
          if hooks = "" then ⟨true, [.templateBuild], false, [], [], false⟩
          else
            match reverseProxy w.static with
            | (t, none) => ⟨true, .templateBuild :: t, false, [], [], false⟩
            | (t, some ep) =>
              ⟨false, .templateBuild :: (t ++ [.listen]), true,
                (w.staticRequests.map (staticHandler ep)).flatten,
                signalRoutine w.signals [.svcStop, .tunnelStop], false⟩

/-- A well-formed webhook request: valid JSON body carrying
repository.full_name = "owner/repo" and after = "abc123", with every
external call succeeding. -/
def wOk : HandlerWorld :=
  { method := "POST",
    readBody := .ok "payload-bytes",
    bodyJson := some (.obj [("repository", .obj [("full_name", .str "owner/repo")]),
                            ("after", .str "abc123")]),
    jsonErr := "",
    connect := .ok (),
    tunnelStart := .ok (),
    endpoint := .ok "http://localhost:23000",
    urlParse := fun _ => .ok () }

/-- A request whose body the JSON lexer rejects (raw bytes "not json"). -/
def wBadJson : HandlerWorld :=
  { method := "POST",
    readBody := .ok "not json",
    bodyJson := none,
    jsonErr := "invalid character o in literal null",
    connect := .ok (),
    tunnelStart := .ok (),
    endpoint := .ok "http://localhost:23000",
    urlParse := fun _ => .ok () }

/-- A request whose body is the valid JSON object \x7b\x7d: both required
fields are absent, so Unmarshal succeeds with empty-string zero values. -/
def wEmptyFields : HandlerWorld :=
  { method := "POST",
    readBody := .ok "\x7b\x7d",
    bodyJson := some (.obj []),
    jsonErr := "",
    connect := .ok (),
    tunnelStart := .ok (),
    endpoint := .ok "http://localhost:23000",
    urlParse := fun _ => .ok () }

/-- A well-formed request for which dagger.Connect fails. -/
def wConnFail : HandlerWorld :=
  { method := "POST",
    readBody := .ok "payload-bytes",
    bodyJson := some (.obj [("repository", .obj [("full_name", .str "owner/repo")]),
                            ("after", .str "abc123")]),
    jsonErr := "",
    connect := .error "connection refused",
    tunnelStart := .ok (),
    endpoint := .ok "http://localhost:23000",
    urlParse := fun _ => .ok () }

/-- A static-mode process run: hooks flag set, non-empty hooks file, all
setup calls succeeding, two inbound requests, and two delivered signals
(SIGINT = 2, then SIGTERM = 15). -/
def wStatic : MainWorld :=
  { connect := .ok (),
    templateSync := .ok (),
    hooksPath := "/hooks/hooks.json",
    hooksContents := .ok "hooks-config",
    static := { tunnelStart := .ok (),
                endpoint := .ok "http://localhost:23000",
                urlParse := fun _ => .ok () },
    staticRequests := [⟨"POST", "bodyA"⟩, ⟨"GET", "bodyB"⟩],
    cloneRequests := [],
    signals := [2, 15] }

/-- A process run in which the template warm-up Sync fails. -/
def wSyncFail : MainWorld :=
  { connect := .ok (),
    templateSync := .error "failed to build webhook",
    hooksPath := "",
    hooksContents := .ok "",
    static := { tunnelStart := .ok (),
                endpoint := .ok "",
                urlParse := fun _ => .ok () },
    staticRequests := [],
    cloneRequests := [],
    signals := [] }

/-- Helper: countEvents distributes over list append. -/
theorem countEvents_append (p : Event → Bool) (l1 l2 : List Event) :
    countEvents p (l1 ++ l2) = countEvents p l1 + countEvents p l2 := by
  simp [countEvents, List.filter_append]

/-- Helper: splitOnSlash never returns the empty list, so indexing its
last element cannot go out of bounds. -/
theorem splitOnSlash_ne_nil (l : List Char) : splitOnSlash l ≠ [] := by
  induction l with
  | nil => simp [splitOnSlash]
  | cons c cs ih =>
    by_cases hc : c = '/'
    · simp [splitOnSlash, hc]
    · simp only [splitOnSlash, hc, if_false]
      cases h : splitOnSlash cs with
      | nil => simp
      | cons p ps => simp

/-- Helper: splitting a string with a trailing slash appends one empty
trailing field, exactly as Go strings.Split does. -/
theorem splitOnSlash_append_slash (l : List Char) :
    splitOnSlash (l ++ ['/']) = splitOnSlash l ++ [[]] := by
  induction l with
  | nil => rfl
  | cons c cs ih =>
    by_cases hc : c = '/'
    · simp [splitOnSlash, hc, ih]
    · have hne := splitOnSlash_ne_nil cs
      cases h : splitOnSlash cs with
      | nil => exact absurd h hne
      | cons p ps =>
        simp [splitOnSlash, hc, ih, h, List.cons_append]

/-- Helper: the element at index length-1 of xs ++ [a] is a. -/
theorem get_at_concat_length {α : Type} (xs : List α) (a : α) :
    (xs ++ [a]).get? xs.length = some a := by
  induction xs with
  | nil => rfl
  | cons x xs ih => simp

/-- Helper: indexing a non-empty list at length-1 always yields a value. -/
theorem get_last_isSome {α : Type} (xs : List α) (h : xs ≠ []) :
    (xs.get? (xs.length - 1)).isSome = true := by
  induction xs with
  | nil => exact absurd rfl h
  | cons x xs ih =>
    cases xs with
    | nil => rfl
    | cons y ys =>
      simp

/-- C1: in clone-and-proxy mode, whenever the webhook body was read and
parsed successfully and an environment was provisioned (the dagger client
connected and Tunnel.Start succeeded), svc.Stop and tunnel.Stop each run
exactly once, on every exit path of the handler: success, endpoint
resolution failure, and endpoint parse failure (a relay failure is internal
to ServeHTTP and does not change the deferred teardown). -/
theorem clone_teardown_exactly_once (w : HandlerWorld) (b : String) (gh : GithubWebhook)
    (hb : w.readBody = .ok b) (hp : parseBody w = .ok gh)
    (hc : w.connect = .ok ()) (ht : w.tunnelStart = .ok ()) :
    countEvents isSvcStop (gitCloneProxy w) = 1 ∧
    countEvents isTunnelStop (gitCloneProxy w) = 1 := by
  simp only [gitCloneProxy, hb, hp, hc, ht]
  split
  · exact ⟨rfl, rfl⟩
  · split
    · exact ⟨rfl, rfl⟩
    · exact ⟨rfl, rfl⟩

/-- Witness for C1 at the concrete all-success request wOk. -/
theorem clone_teardown_exactly_once_witness :
    countEvents isSvcStop (gitCloneProxy wOk) = 1 ∧
    countEvents isTunnelStop (gitCloneProxy wOk) = 1 :=
  clone_teardown_exactly_once wOk "payload-bytes" ⟨"owner/repo", "abc123"⟩ rfl rfl rfl rfl

/-- C2 counterexample: the body \x7b\x7d is valid JSON in which both
repository.full_name and after are absent, yet the handler does not
respond 500 before provisioning: Unmarshal succeeds with empty-string zero
values and all four provisioning steps (git resolve, mount, workdir,
tunnel start) are attempted. -/
theorem absent_fields_still_provision :
    parseBody wEmptyFields = .ok ⟨"", ""⟩ ∧
    countEvents isProvision (gitCloneProxy wEmptyFields) = 4 ∧
    countEvents isRespond (gitCloneProxy wEmptyFields) = 0 ∧
    Event.gitResolve "https://github.com/" "" ∈ gitCloneProxy wEmptyFields :=
  ⟨rfl, rfl, rfl, by decide⟩

/-- C2 (amended): for every request whose body fails json.Unmarshal into
the webhook struct (lexer rejection or wrong-typed fields), the handler
responds 500 with the error message as body and performs zero provisioning
steps; bodies that unmarshal successfully with absent or empty fields
proceed to provisioning with empty-string defaults. -/
theorem unmarshal_error_responds_500_no_provision (w : HandlerWorld) (b e : String)
    (hb : w.readBody = .ok b) (hp : parseBody w = .error e) :
    gitCloneProxy w = [.respond 500 e] ∧
    countEvents isProvision (gitCloneProxy w) = 0 := by
  have h1 : gitCloneProxy w = [.respond 500 e] := by
    simp only [gitCloneProxy, hb, hp]
  refine ⟨h1, ?_⟩
  rw [h1]
  rfl

/-- Witness for the amended C2 at the concrete lexer-rejected body. -/
theorem unmarshal_error_responds_500_no_provision_witness :
    gitCloneProxy wBadJson = [.respond 500 "invalid character o in literal null"] ∧
    countEvents isProvision (gitCloneProxy wBadJson) = 0 :=
  unmarshal_error_responds_500_no_provision wBadJson "not json"
    "invalid character o in literal null" rfl rfl

/-- C5: for every successfully parsed webhook payload (with the dagger
client connected), the git resolver is invoked with clone URL exactly
"https://github.com/" ++ full_name and commit reference exactly the after
field, and the tree is mounted at "/" ++ (last "/"-separated segment of
full_name) with the workdir set to that same path; for any request whose
body fails to unmarshal the resolver is never invoked. -/
theorem resolver_invoked_with_exact_args (w : HandlerWorld) (b : String) (gh : GithubWebhook)
    (hb : w.readBody = .ok b) (hp : parseBody w = .ok gh) (hc : w.connect = .ok ()) :
    (Event.gitResolve ("https://github.com/" ++ gh.fullName) gh.after ∈ gitCloneProxy w ∧
     Event.withDirectory ("/" ++ repoNameOf gh.fullName) ∈ gitCloneProxy w ∧
     Event.withWorkdir ("/" ++ repoNameOf gh.fullName) ∈ gitCloneProxy w) ∧
    (∀ w2 e2, parseBody w2 = .error e2 →
      countEvents isResolve (gitCloneProxy w2) = 0) := by
  constructor
  · simp only [gitCloneProxy, hb, hp, hc]
    split
    · exact ⟨by simp, by simp, by simp⟩
    · split
      · exact ⟨by simp, by simp, by simp⟩
      · split
        · exact ⟨by simp, by simp, by simp⟩
        · exact ⟨by simp, by simp, by simp⟩
  · intro w2 e2 hp2
    rcases hb2 : w2.readBody with e0 | b2
    · simp only [gitCloneProxy, hb2]; rfl
    · simp only [gitCloneProxy, hb2, hp2]; rfl

/-- Witness for C5 at the concrete all-success request wOk. -/
theorem resolver_invoked_with_exact_args_witness :
    (Event.gitResolve ("https://github.com/" ++ "owner/repo") "abc123" ∈ gitCloneProxy wOk ∧
     Event.withDirectory ("/" ++ repoNameOf "owner/repo") ∈ gitCloneProxy wOk ∧
     Event.withWorkdir ("/" ++ repoNameOf "owner/repo") ∈ gitCloneProxy wOk) ∧
    (∀ w2 e2, parseBody w2 = .error e2 →
      countEvents isResolve (gitCloneProxy w2) = 0) :=
  resolver_invoked_with_exact_args wOk "payload-bytes" ⟨"owner/repo", "abc123"⟩ rfl rfl rfl

/-- C6: when the handler reaches the relay stage, the request forwarded to
the upstream environment carries exactly the bytes io.ReadAll returned for
the inbound body (the body restored at main.go:143), and every forwarded
request in the trace carries those same bytes. -/
theorem forwarded_body_identical (w : HandlerWorld) (b : String) (gh : GithubWebhook)
    (ep : String)
    (hb : w.readBody = .ok b) (hp : parseBody w = .ok gh) (hc : w.connect = .ok ())
    (ht : w.tunnelStart = .ok ()) (he : w.endpoint = .ok ep)
    (hu : w.urlParse ep = .ok ()) :
    Event.relayTo ep w.method b ∈ gitCloneProxy w ∧
    (∀ ep2 m2 b2, Event.relayTo ep2 m2 b2 ∈ gitCloneProxy w → b2 = b) := by
  have htr : gitCloneProxy w =
      [.clientConnect, .gitResolve ("https://github.com/" ++ gh.fullName) gh.after,
       .withDirectory ("/" ++ repoNameOf gh.fullName),
       .withWorkdir ("/" ++ repoNameOf gh.fullName),
       .tunnelStart, .relayTo ep w.method b, .svcStop, .tunnelStop, .clientClose] := by
    simp only [gitCloneProxy, hb, hp, hc, ht, he, hu, List.cons_append, List.nil_append]
  rw [htr]
  constructor
  · simp
  · intro ep2 m2 b2 hmem
    simp at hmem
    exact hmem.2.2

/-- Witness for C6 at the concrete all-success request wOk. -/
theorem forwarded_body_identical_witness :
    Event.relayTo "http://localhost:23000" wOk.method "payload-bytes" ∈ gitCloneProxy wOk ∧
    (∀ ep2 m2 b2, Event.relayTo ep2 m2 b2 ∈ gitCloneProxy wOk → b2 = "payload-bytes") :=
  forwarded_body_identical wOk "payload-bytes" ⟨"owner/repo", "abc123"⟩
    "http://localhost:23000" rfl rfl rfl rfl rfl rfl

/-- C9: splitting repository.full_name on "/" always yields at least one
element, so taking the element at index length-1 (the Go expression
fullRepo[len(fullRepo)-1]) never fails or panics; when full_name is empty
or ends with "/", the derived mount path and workdir are exactly "/". -/
theorem last_segment_never_panics (s : String) :
    splitOnSlash s.data ≠ [] ∧
    ((splitOnSlash s.data).get? ((splitOnSlash s.data).length - 1)).isSome = true ∧
    (s = "" → "/" ++ repoNameOf s = "/") ∧
    (∀ l, s.data = l ++ ['/'] → "/" ++ repoNameOf s = "/") := by
  refine ⟨splitOnSlash_ne_nil s.data,
    get_last_isSome _ (splitOnSlash_ne_nil s.data), ?_, ?_⟩
  · intro h
    subst h
    rfl
  · intro l hl
    simp only [repoNameOf, hl, splitOnSlash_append_slash, List.length_append,
      List.length_singleton, Nat.add_sub_cancel, get_at_concat_length, Option.getD_some]
    rfl

/-- Witness for C9 at the empty string and at a name with a trailing "/". -/
theorem last_segment_never_panics_witness :
    ("/" ++ repoNameOf "" = "/") ∧ ("/" ++ repoNameOf "a/" = "/") :=
  ⟨(last_segment_never_panics "").2.2.1 rfl,
   (last_segment_never_panics "a/").2.2.2 ['a'] rfl⟩

/-- C10: each invocation of the clone-and-proxy handler that passes body
parsing opens exactly one dagger client connection of its own (none is
shared across requests: the connect event is part of that request's own
trace); if the connection fails the handler responds 500 having provisioned
nothing; if it succeeds, client.Close runs exactly once on every exit path. -/
theorem fresh_client_per_request (w : HandlerWorld) (b : String) (gh : GithubWebhook)
    (hb : w.readBody = .ok b) (hp : parseBody w = .ok gh) :
    countEvents isClientConnect (gitCloneProxy w) = 1 ∧
    (∀ e, w.connect = .error e →
      gitCloneProxy w = [.clientConnect, .respond 500 e] ∧
      countEvents isProvision (gitCloneProxy w) = 0) ∧
    (w.connect = .ok () → countEvents isClientClose (gitCloneProxy w) = 1) := by
  refine ⟨?_, ?_, ?_⟩
  · simp only [gitCloneProxy, hb, hp]
    split
    · rfl
    · split
      · rfl
      · split
        · rfl
        · split <;> rfl
  · intro e hce
    have h1 : gitCloneProxy w = [.clientConnect, .respond 500 e] := by
      simp only [gitCloneProxy, hb, hp, hce]
    refine ⟨h1, ?_⟩
    rw [h1]
    rfl
  · intro hc
    simp only [gitCloneProxy, hb, hp, hc]
    split
    · rfl
    · split
      · rfl
      · split <;> rfl

/-- Witness for C10 at a connect-success request and a connect-failure
request. -/
theorem fresh_client_per_request_witness :
    countEvents isClientConnect (gitCloneProxy wOk) = 1 ∧
    gitCloneProxy wConnFail = [.clientConnect, .respond 500 "connection refused"] :=
  ⟨(fresh_client_per_request wOk "payload-bytes" ⟨"owner/repo", "abc123"⟩ rfl rfl).1,
   ((fresh_client_per_request wConnFail "payload-bytes" ⟨"owner/repo", "abc123"⟩
      rfl rfl).2.1 "connection refused" rfl).1⟩

/-- C3 (code bug): in a concrete static-mode run that receives SIGINT then
SIGTERM, the signal goroutine invokes the stop function synchronously
(stopping the service and the tunnel) and then calls the cancel function —
but the context created at main.go:73 is discarded into the blank
identifier, the server is never built from it, and srv.Shutdown is never
called, so no run ever requests server shutdown: the claimed effect "the
HTTP server shuts down" does not occur. -/
theorem signal_stop_then_cancel_no_server_shutdown :
    (runMain wStatic).signalTrace = [.stopInvoke, .svcStop, .tunnelStop, .cancelCtx] ∧
    (runMain wStatic).shutdownRequested = false :=
  ⟨rfl, rfl⟩

/-- C4: in every run of main, whatever signals arrive and in whatever mode,
the stop function is invoked at most once: the signal goroutine performs a
single receive from the capacity-1 channel and then exits, so no second
teardown of the same tunnel/environment pair can start. -/
theorem stop_invoked_at_most_once (w : MainWorld) :
    countEvents isStopInvoke (runMain w).signalTrace ≤ 1 := by
  have hsig : ∀ (sigs : List Nat) (evs : List Event),
      countEvents isStopInvoke evs = 0 →
      countEvents isStopInvoke (signalRoutine sigs evs) ≤ 1 := by
    intro sigs evs h
    cases sigs with
    | nil => simp [signalRoutine, countEvents]
    | cons s rest =>
      simp only [countEvents] at h
      simp [signalRoutine, countEvents, List.filter_cons, List.filter_append,
        isStopInvoke, h]
  simp only [runMain]
  split
  · simp [countEvents]
  · split
    · simp [countEvents]
    · split
      · exact hsig _ _ rfl
      · split
        · simp [countEvents]
        · split
          · simp [countEvents]
          · split
            · simp [countEvents]
            · exact hsig _ _ rfl

/-- C7: if the template warm-up build fails, main is fatal (log.Fatalf,
non-zero exit) with no listener opened and no request ever served; and in
every run in which the listener does open, the template build had
succeeded and is the very first event of the setup trace, before listen. -/
theorem template_built_before_listen (w : MainWorld) :
    (∀ e, w.templateSync = .error e →
      (runMain w).fatal = true ∧ (runMain w).listening = false ∧
      (runMain w).serveTrace = [] ∧ Event.listen ∉ (runMain w).setupTrace) ∧
    ((runMain w).listening = true →
      w.templateSync = .ok () ∧
      (runMain w).setupTrace.head? = some .templateBuild) := by
  simp only [runMain]
  split
  · constructor
    · intro e he
      simp
    · intro hl
      exact Bool.noConfusion hl
  · rename_i u0 hc
    split
    · constructor
      · intro e he
        simp
      · intro hl
        exact Bool.noConfusion hl
    · rename_i u1 ht
      cases u1
      constructor
      · intro e he
        rw [ht] at he
        cases he
      · intro hl
        refine ⟨ht, ?_⟩
        split
        · rfl
        · split
          · rfl
          · split
            · rfl
            · split <;> rfl

/-- Witness for C7: a failing-build run never serves, while the concrete
healthy static run listens with the template built first. -/
theorem template_built_before_listen_witness :
    ((runMain wSyncFail).fatal = true ∧ (runMain wSyncFail).listening = false ∧
     (runMain wSyncFail).serveTrace = [] ∧
     Event.listen ∉ (runMain wSyncFail).setupTrace) ∧
    (wStatic.templateSync = .ok () ∧
     (runMain wStatic).setupTrace.head? = some .templateBuild) :=
  ⟨(template_built_before_listen wSyncFail).1 "failed to build webhook" rfl,
   (template_built_before_listen wStatic).2 rfl⟩

/-- Helper: the static-mode serving trace never starts a tunnel. -/
theorem static_serve_no_tunnel_start (ep : String) (rs : List Request) :
    countEvents isTunnelStart ((rs.map (staticHandler ep)).flatten) = 0 := by
  induction rs with
  | nil => rfl
  | cons r rest ih =>
    simp only [List.map_cons, List.flatten_cons, countEvents_append, ih, staticHandler]
    rfl

/-- C8: in static mode with a healthy setup, Tunnel.Start happens exactly
once across the whole process trace (setup plus all request handling); the
serving trace is exactly one relay per request, each to the endpoint fixed
at setup; and every relay event in the serving trace targets that same
endpoint, which is never re-provisioned or changed. -/
theorem static_single_tunnel_fixed_endpoint (w : MainWorld) (hooks ep : String)
    (hc : w.connect = .ok ()) (hts : w.templateSync = .ok ())
    (hp : w.hooksPath ≠ "") (hh : w.hooksContents = .ok hooks) (hne : hooks ≠ "")
    (h1 : w.static.tunnelStart = .ok ()) (h2 : w.static.endpoint = .ok ep)
    (h3 : w.static.urlParse ep = .ok ()) :
    countEvents isTunnelStart ((runMain w).setupTrace ++ (runMain w).serveTrace) = 1 ∧
    (runMain w).serveTrace = (w.staticRequests.map (staticHandler ep)).flatten ∧
    (∀ e ∈ (runMain w).serveTrace, ∀ ep2 m2 b2,
      e = Event.relayTo ep2 m2 b2 → ep2 = ep) := by
  have hrp : reverseProxy w.static = ([.tunnelStart], some ep) := by
    simp only [reverseProxy, h1, h2, h3]
  have hrun : runMain w = ⟨false, [.templateBuild, .tunnelStart, .listen], true,
      (w.staticRequests.map (staticHandler ep)).flatten,
      signalRoutine w.signals [.svcStop, .tunnelStop], false⟩ := by
    simp only [runMain, hc, hts, hh, hrp, if_neg hp, if_neg hne,
      List.cons_append, List.singleton_append, List.nil_append]
  rw [hrun]
  refine ⟨?_, rfl, ?_⟩
  · simp only [countEvents_append, static_serve_no_tunnel_start]
    rfl
  · intro e he ep2 m2 b2 hee
    subst hee
    rcases List.mem_flatten.mp he with ⟨l, hl, hel⟩
    rcases List.mem_map.mp hl with ⟨r, hr, rfl⟩
    simp [staticHandler] at hel
    exact hel.1

/-- Witness for C8 at the concrete static run with two requests. -/
theorem static_single_tunnel_fixed_endpoint_witness :
    countEvents isTunnelStart
      ((runMain wStatic).setupTrace ++ (runMain wStatic).serveTrace) = 1 ∧
    (runMain wStatic).serveTrace =
      (wStatic.staticRequests.map (staticHandler "http://localhost:23000")).flatten ∧
    (∀ e ∈ (runMain wStatic).serveTrace, ∀ ep2 m2 b2,
      e = Event.relayTo ep2 m2 b2 → ep2 = "http://localhost:23000") :=
  static_single_tunnel_fixed_endpoint wStatic "hooks-config" "http://localhost:23000"
    rfl rfl (by decide) rfl (by decide) rfl rfl rfl

end Pocketci
